import Mathlib

/-!
Shallow embedding of the Pong game in `src/main.rs`.

Machine floats (`f32`) are modelled as `ℚ`: every numeric value the game
manipulates (window constants, paddle steps, ball speeds, clamp bounds and
the mouse coordinates that reach the handlers) is handled only with
addition, subtraction, negation, comparison and clamping, all of which are
exact on these values in `f32`, so the rational model is faithful.
`Vec2` fields are split into explicit `_x`/`_y` components.
The `ggez` boundary (rendering, window setup) is out of scope per the spec;
only the event handlers and the physics tick are embedded.
-/

namespace Pong

def WINDOW_WIDTH : ℚ := 800
def WINDOW_HEIGHT : ℚ := 600
def PADDLE_WIDTH : ℚ := 20
def PADDLE_HEIGHT : ℚ := 100
def PADDLE_SPEED : ℚ := 5
def BALL_RADIUS : ℚ := 10

inductive Difficulty
  | Easy
  | Medium
  | Hard
  deriving DecidableEq, Repr

inductive GameState
  | Home
  | Menu
  | Playing
  | Paused
  deriving DecidableEq, Repr

/-- The key codes the handlers discriminate on; every other key is `Other`
(the source's wildcard arms). -/
inductive KeyCode
  | W
  | S
  | Up
  | Down
  | P
  | Return
  | Other
  deriving DecidableEq, Repr

inductive MouseButton
  | Left
  | Right
  | Middle
  deriving DecidableEq, Repr

/-- `struct MainState` from `src/main.rs`, with `Vec2` split into components. -/
structure MainState where
  left_paddle_y : ℚ
  right_paddle_y : ℚ
  ball_position_x : ℚ
  ball_position_y : ℚ
  ball_velocity_x : ℚ
  ball_velocity_y : ℚ
  difficulty : Difficulty
  game_state : GameState
  menu_selection : ℕ
  pause_selection : ℕ
  left_paddle_dragging : Bool
  right_paddle_dragging : Bool
  deriving DecidableEq, Repr

/-- `ggez::graphics::Rect` (x, y, w, h). -/
structure Rect where
  x : ℚ
  y : ℚ
  w : ℚ
  h : ℚ

/-- `ggez::graphics::Rect::contains`: point-in-rectangle, all four edges
inclusive, exactly as in the ggez library the source links against. -/
def Rect.contains (r : Rect) (px py : ℚ) : Prop :=
  px ≥ r.x ∧ px ≤ r.x + r.w ∧ py ≤ r.y + r.h ∧ py ≥ r.y

instance (r : Rect) (px py : ℚ) : Decidable (r.contains px py) := by
  unfold Rect.contains; infer_instance

/-- `f32::clamp`. -/
def clampQ (v lo hi : ℚ) : ℚ :=
  if v < lo then lo else if v > hi then hi else v

/-- `MainState::new`. -/
def MainState.new : MainState :=
  { left_paddle_y := WINDOW_HEIGHT / 2 - PADDLE_HEIGHT / 2
    right_paddle_y := WINDOW_HEIGHT / 2 - PADDLE_HEIGHT / 2
    ball_position_x := WINDOW_WIDTH / 2
    ball_position_y := WINDOW_HEIGHT / 2
    ball_velocity_x := 0
    ball_velocity_y := 0
    difficulty := Difficulty.Medium
    game_state := GameState.Home
    menu_selection := 1
    pause_selection := 0
    left_paddle_dragging := false
    right_paddle_dragging := false }

/-- The `match self.difficulty` arms inside `MainState::start_game`. -/
def difficultySpeed : Difficulty → ℚ
  | Difficulty.Easy => 2
  | Difficulty.Medium => 4
  | Difficulty.Hard => 6

/-- `MainState::start_game`. -/
def start_game (s : MainState) : MainState :=
  { s with
    ball_velocity_x := difficultySpeed s.difficulty
    ball_velocity_y := difficultySpeed s.difficulty
    game_state := GameState.Playing }

/-- `MainState::restart_game`. -/
def restart_game (s : MainState) : MainState :=
  start_game
    { s with
      left_paddle_y := WINDOW_HEIGHT / 2 - PADDLE_HEIGHT / 2
      right_paddle_y := WINDOW_HEIGHT / 2 - PADDLE_HEIGHT / 2
      ball_position_x := WINDOW_WIDTH / 2
      ball_position_y := WINDOW_HEIGHT / 2 }

/-- `MainState::stop_game`. -/
def stop_game (s : MainState) : MainState :=
  { s with game_state := GameState.Menu }

/-- First statement of the Playing branch of `MainState::update`:
`self.ball_position += self.ball_velocity`. -/
def moveBall (s : MainState) : MainState :=
  { s with
    ball_position_x := s.ball_position_x + s.ball_velocity_x
    ball_position_y := s.ball_position_y + s.ball_velocity_y }

/-- Wall-collision statement of `MainState::update`. -/
def wallBounce (s : MainState) : MainState :=
  if s.ball_position_y - BALL_RADIUS < 0 ∨ s.ball_position_y + BALL_RADIUS > WINDOW_HEIGHT
  then { s with ball_velocity_y := -s.ball_velocity_y }
  else s

/-- Left-paddle collision statement of `MainState::update`. -/
def leftPaddleBounce (s : MainState) : MainState :=
  if s.ball_position_x - BALL_RADIUS < PADDLE_WIDTH ∧
     Rect.contains ⟨0, s.left_paddle_y, PADDLE_WIDTH, PADDLE_HEIGHT⟩
       s.ball_position_x s.ball_position_y
  then { s with ball_velocity_x := -s.ball_velocity_x }
  else s

/-- Right-paddle collision statement of `MainState::update`. -/
def rightPaddleBounce (s : MainState) : MainState :=
  if s.ball_position_x + BALL_RADIUS > WINDOW_WIDTH - PADDLE_WIDTH ∧
     Rect.contains ⟨WINDOW_WIDTH - PADDLE_WIDTH, s.right_paddle_y, PADDLE_WIDTH, PADDLE_HEIGHT⟩
       s.ball_position_x s.ball_position_y
  then { s with ball_velocity_x := -s.ball_velocity_x }
  else s

/-- `MainState::update` (the per-frame tick): physics only while Playing. -/
def update (s : MainState) : MainState :=
  match s.game_state with
  | GameState.Playing => rightPaddleBounce (leftPaddleBounce (wallBounce (moveBall s)))
  | _ => s

/-- Home arm of `MainState::key_down_event`. -/
def key_down_home (keycode : KeyCode) (s : MainState) : MainState :=
  if keycode = KeyCode.Return then { s with game_state := GameState.Menu } else s

/-- The `match self.menu_selection` on Return in the Menu arm of
`MainState::key_down_event` (arms `0`..`3`, wildcard no-op). -/
def menu_enter (s : MainState) : MainState :=
  if s.menu_selection = 0 then start_game { s with difficulty := Difficulty.Easy }
  else if s.menu_selection = 1 then start_game { s with difficulty := Difficulty.Medium }
  else if s.menu_selection = 2 then start_game { s with difficulty := Difficulty.Hard }
  else if s.menu_selection = 3 then { s with game_state := GameState.Home }
  else s

/-- Menu arm of `MainState::key_down_event`; the Rust `match keycode`
alternation arms (`W | Up`, `S | Down`) become disjunctive if-chains. -/
def key_down_menu (keycode : KeyCode) (s : MainState) : MainState :=
  if keycode = KeyCode.W ∨ keycode = KeyCode.Up then
    (if s.menu_selection > 0 then { s with menu_selection := s.menu_selection - 1 } else s)
  else if keycode = KeyCode.S ∨ keycode = KeyCode.Down then
    (if s.menu_selection < 3 then { s with menu_selection := s.menu_selection + 1 } else s)
  else if keycode = KeyCode.Return then menu_enter s
  else s

/-- Playing arm of `MainState::key_down_event`: event-driven paddle moves
(boundary checked before the step, no clamping) and the P pause key. -/
def key_down_playing (keycode : KeyCode) (s : MainState) : MainState :=
  if keycode = KeyCode.W then
    (if s.left_paddle_y > 0 then { s with left_paddle_y := s.left_paddle_y - PADDLE_SPEED } else s)
  else if keycode = KeyCode.S then
    (if s.left_paddle_y + PADDLE_HEIGHT < WINDOW_HEIGHT
     then { s with left_paddle_y := s.left_paddle_y + PADDLE_SPEED } else s)
  else if keycode = KeyCode.Up then
    (if s.right_paddle_y > 0 then { s with right_paddle_y := s.right_paddle_y - PADDLE_SPEED } else s)
  else if keycode = KeyCode.Down then
    (if s.right_paddle_y + PADDLE_HEIGHT < WINDOW_HEIGHT
     then { s with right_paddle_y := s.right_paddle_y + PADDLE_SPEED } else s)
  else if keycode = KeyCode.P then { s with game_state := GameState.Paused }
  else s

/-- The `match self.pause_selection` on Return in the Paused arm of
`MainState::key_down_event`. -/
def pause_enter (s : MainState) : MainState :=
  if s.pause_selection = 0 then { s with game_state := GameState.Playing }
  else if s.pause_selection = 1 then restart_game s
  else if s.pause_selection = 2 then stop_game s
  else if s.pause_selection = 3 then { s with game_state := GameState.Home }
  else s

/-- Paused arm of `MainState::key_down_event`. -/
def key_down_paused (keycode : KeyCode) (s : MainState) : MainState :=
  if keycode = KeyCode.W ∨ keycode = KeyCode.Up then
    (if s.pause_selection > 0 then { s with pause_selection := s.pause_selection - 1 } else s)
  else if keycode = KeyCode.S ∨ keycode = KeyCode.Down then
    (if s.pause_selection < 3 then { s with pause_selection := s.pause_selection + 1 } else s)
  else if keycode = KeyCode.Return then pause_enter s
  else s

/-- `MainState::key_down_event`: dispatch on the current screen. -/
def key_down_event (keycode : KeyCode) (s : MainState) : MainState :=
  match s.game_state with
  | GameState.Home => key_down_home keycode s
  | GameState.Menu => key_down_menu keycode s
  | GameState.Playing => key_down_playing keycode s
  | GameState.Paused => key_down_paused keycode s

/-- The `menu_options` array local to `MainState::mouse_button_down_event`. -/
def menu_options : List (ℚ × ℚ) :=
  [(300, 200), (300, 250), (300, 300), (300, 350)]

/-- The `pause_options` array local to `MainState::mouse_button_down_event`
(textually identical layout to `menu_options`). -/
def pause_options : List (ℚ × ℚ) :=
  [(300, 200), (300, 250), (300, 300), (300, 350)]

/-- The `for (i, &(mx, my)) in options.iter().enumerate()` loop body of
`MainState::mouse_button_down_event`: index of the first option whose
200×50 hit-region contains the click, if any (`break` on first hit). -/
def hitIndexAux (x y : ℚ) : List (ℚ × ℚ) → ℕ → Option ℕ
  | [], _ => none
  | (mx, my) :: rest, i =>
      if x ≥ mx ∧ x ≤ mx + 200 ∧ y ≥ my ∧ y ≤ my + 50 then some i
      else hitIndexAux x y rest (i + 1)

def hitIndex (opts : List (ℚ × ℚ)) (x y : ℚ) : Option ℕ :=
  hitIndexAux x y opts 0

/-- Menu arm of `MainState::mouse_button_down_event`: a hit sets the
selection and re-enters `key_down_event` with Return, as the source does. -/
def mouse_down_menu (x y : ℚ) (s : MainState) : MainState :=
  match hitIndex menu_options x y with
  | some i => key_down_event KeyCode.Return { s with menu_selection := i }
  | none => s

/-- Paused arm of `MainState::mouse_button_down_event`. -/
def mouse_down_paused (x y : ℚ) (s : MainState) : MainState :=
  match hitIndex pause_options x y with
  | some i => key_down_event KeyCode.Return { s with pause_selection := i }
  | none => s

/-- Playing arm of `MainState::mouse_button_down_event`: start a drag on
the first paddle containing the cursor (left checked before right). -/
def mouse_down_playing (x y : ℚ) (s : MainState) : MainState :=
  if Rect.contains ⟨0, s.left_paddle_y, PADDLE_WIDTH, PADDLE_HEIGHT⟩ x y then
    { s with left_paddle_dragging := true }
  else if Rect.contains ⟨WINDOW_WIDTH - PADDLE_WIDTH, s.right_paddle_y, PADDLE_WIDTH, PADDLE_HEIGHT⟩ x y then
    { s with right_paddle_dragging := true }
  else s

/-- `MainState::mouse_button_down_event`. -/
def mouse_button_down_event (button : MouseButton) (x y : ℚ) (s : MainState) : MainState :=
  if button = MouseButton.Left then
    match s.game_state with
    | GameState.Home => { s with game_state := GameState.Menu }
    | GameState.Menu => mouse_down_menu x y s
    | GameState.Paused => mouse_down_paused x y s
    | GameState.Playing => mouse_down_playing x y s
  else s

/-- `MainState::mouse_button_up_event`. -/
def mouse_button_up_event (button : MouseButton) (_x _y : ℚ) (s : MainState) : MainState :=
  if button = MouseButton.Left then
    { s with left_paddle_dragging := false, right_paddle_dragging := false }
  else s

/-- `MainState::mouse_motion_event`. -/
def mouse_motion_event (_x y : ℚ) (s : MainState) : MainState :=
  if s.left_paddle_dragging then
    { s with left_paddle_y := clampQ y 0 (WINDOW_HEIGHT - PADDLE_HEIGHT) }
  else if s.right_paddle_dragging then
    { s with right_paddle_y := clampQ y 0 (WINDOW_HEIGHT - PADDLE_HEIGHT) }
  else s

/-- One host-loop event delivered to the session (tick or input). -/
inductive Event
  | tick
  | keyDown (k : KeyCode)
  | mouseDown (b : MouseButton) (x y : ℚ)
  | mouseUp (b : MouseButton) (x y : ℚ)
  | mouseMove (x y : ℚ)

def step (e : Event) (s : MainState) : MainState :=
  match e with
  | Event.tick => update s
  | Event.keyDown k => key_down_event k s
  | Event.mouseDown b x y => mouse_button_down_event b x y s
  | Event.mouseUp b x y => mouse_button_up_event b x y s
  | Event.mouseMove x y => mouse_motion_event x y s

/-- Run a whole event sequence from a state. -/
def run (evs : List Event) (s : MainState) : MainState :=
  evs.foldl (fun t e => step e t) s

/-- Iterated physics ticks. -/
def ticks : ℕ → MainState → MainState
  | 0, s => s
  | n + 1, s => ticks n (update s)

/-- Squared speed of the ball; `√` of it is the speed magnitude, and two
nonnegative reals are equal iff their squares are. -/
def speedSq (s : MainState) : ℚ :=
  s.ball_velocity_x * s.ball_velocity_x + s.ball_velocity_y * s.ball_velocity_y

/-- Both selection indices in bounds (they are `ℕ`, so `0 ≤ _` is automatic,
mirroring Rust's `usize`). -/
def selInv (s : MainState) : Prop :=
  s.menu_selection ≤ 3 ∧ s.pause_selection ≤ 3

/-- The paddle invariant the spec asserts: top edge fully inside the window,
`0 ≤ y ≤ windowHeight - paddleHeight` (= 500). -/
def paddleInRange (q : ℚ) : Prop :=
  0 ≤ q ∧ q ≤ WINDOW_HEIGHT - PADDLE_HEIGHT

/-- Within one key-step of the paddle range: `-5 < y < 505`.  This is what
the unclamped key-moves actually guarantee. -/
def paddleNearRange (q : ℚ) : Prop :=
  -PADDLE_SPEED < q ∧ q < WINDOW_HEIGHT - PADDLE_HEIGHT + PADDLE_SPEED

/-- The first four events of `c1_trace`: reach Playing and drag the left
paddle to `y = 3`. -/
def c1_prefix : List Event :=
  [Event.keyDown KeyCode.Return, Event.keyDown KeyCode.Return,
   Event.mouseDown MouseButton.Left 10 300, Event.mouseMove 10 3]

/-- Event trace reaching a reachable Playing state with the left paddle
dragged to `y = 3`, followed by a `W` key-move. -/
def c1_trace : List Event :=
  [Event.keyDown KeyCode.Return, Event.keyDown KeyCode.Return,
   Event.mouseDown MouseButton.Left 10 300, Event.mouseMove 10 3,
   Event.keyDown KeyCode.W]

/-- The Playing state of scenario P6: ball at `(805, 300)` with velocity
`(4, 4)`, both paddles centered (`right_paddle_y = 250`, so the right
paddle spans `y ∈ [250, 350]`). -/
def c4_state : MainState :=
  { MainState.new with
    game_state := GameState.Playing
    ball_position_x := 805
    ball_position_y := 300
    ball_velocity_x := 4
    ball_velocity_y := 4 }

/-- A Paused state whose pause selection points at "Restart". -/
def pausedRestartState : MainState :=
  { MainState.new with game_state := GameState.Paused, pause_selection := 1 }

/-- The state after pressing Enter on the Home screen: the Menu screen. -/
def menuState : MainState :=
  key_down_event KeyCode.Return MainState.new

/-- Event trace that starts a drag on the left paddle and then pauses, so
the dragging flag survives into a non-Playing screen. -/
def c8_trace : List Event :=
  [Event.keyDown KeyCode.Return, Event.keyDown KeyCode.Return,
   Event.mouseDown MouseButton.Left 10 300, Event.keyDown KeyCode.P]

/-- An event fires the pause-menu "Restart" action: Enter while Paused with
selection 1, or a left click inside the second pause-menu hit-region while
Paused (which sets the selection to 1 and re-enters the Enter handler). -/
def triggersRestart (e : Event) (s : MainState) : Prop :=
  s.game_state = GameState.Paused ∧
  ((∃ x y, e = Event.mouseDown MouseButton.Left x y ∧ hitIndex pause_options x y = some 1) ∨
   (e = Event.keyDown KeyCode.Return ∧ s.pause_selection = 1))

/-- What `restart_game` leaves behind: paddles re-centered, ball
re-centered, relaunched at speed `difficultySpeed d`, screen Playing. -/
def restartOutcome (d : Difficulty) (t : MainState) : Prop :=
  t.left_paddle_y = WINDOW_HEIGHT / 2 - PADDLE_HEIGHT / 2 ∧
  t.right_paddle_y = WINDOW_HEIGHT / 2 - PADDLE_HEIGHT / 2 ∧
  t.ball_position_x = WINDOW_WIDTH / 2 ∧
  t.ball_position_y = WINDOW_HEIGHT / 2 ∧
  t.ball_velocity_x = difficultySpeed d ∧
  t.ball_velocity_y = difficultySpeed d ∧
  t.game_state = GameState.Playing

end Pong

namespace Pong

lemma clampQ_mem (v lo hi : ℚ) (h : lo ≤ hi) :
    lo ≤ clampQ v lo hi ∧ clampQ v lo hi ≤ hi := by
  unfold clampQ; split_ifs <;> constructor <;> linarith

lemma speedSq_moveBall (s : MainState) : speedSq (moveBall s) = speedSq s := rfl

lemma speedSq_wallBounce (s : MainState) : speedSq (wallBounce s) = speedSq s := by
  unfold wallBounce speedSq; split_ifs <;> dsimp <;> ring

lemma speedSq_leftPaddleBounce (s : MainState) : speedSq (leftPaddleBounce s) = speedSq s := by
  unfold leftPaddleBounce speedSq; split_ifs <;> dsimp <;> ring

lemma speedSq_rightPaddleBounce (s : MainState) : speedSq (rightPaddleBounce s) = speedSq s := by
  unfold rightPaddleBounce speedSq; split_ifs <;> dsimp <;> ring

lemma speedSq_update (s : MainState) : speedSq (update s) = speedSq s := by
  cases hgs : s.game_state <;>
    simp [update, hgs, speedSq_rightPaddleBounce, speedSq_leftPaddleBounce,
      speedSq_wallBounce, speedSq_moveBall]

lemma game_state_wallBounce (s : MainState) : (wallBounce s).game_state = s.game_state := by
  unfold wallBounce; split_ifs <;> rfl

lemma game_state_leftPaddleBounce (s : MainState) :
    (leftPaddleBounce s).game_state = s.game_state := by
  unfold leftPaddleBounce; split_ifs <;> rfl

lemma game_state_rightPaddleBounce (s : MainState) :
    (rightPaddleBounce s).game_state = s.game_state := by
  unfold rightPaddleBounce; split_ifs <;> rfl

lemma game_state_update (s : MainState) : (update s).game_state = s.game_state := by
  cases hgs : s.game_state <;>
    simp [update, hgs, game_state_rightPaddleBounce, game_state_leftPaddleBounce,
      game_state_wallBounce, moveBall]

/-- C2: while Screen = Playing, the ball's speed magnitude `√(dx²+dy²)` is
invariant across any sequence of ticks — a tick only ever negates a
velocity component, never changes its magnitude.  Stated on the squared
speed, which determines the magnitude (`√` is injective on nonnegatives);
the Playing screen itself also persists across ticks. -/
theorem C2_speed_magnitude_invariant (s : MainState) (n : ℕ)
    (h : s.game_state = GameState.Playing) :
    (ticks n s).game_state = GameState.Playing ∧ speedSq (ticks n s) = speedSq s := by
  induction n generalizing s with
  | zero => exact ⟨h, rfl⟩
  | succ n ih =>
      have hg2 : (update s).game_state = GameState.Playing := by
        rw [game_state_update]; exact h
      obtain ⟨h1, h2⟩ := ih (update s) hg2
      refine ⟨by simpa [ticks] using h1, ?_⟩
      simp only [ticks]
      rw [h2, speedSq_update]

/-- Witness for C2 at the concrete Playing state reached by Enter, Enter
from the initial state, over three ticks. -/
theorem C2_witness :
    (key_down_event KeyCode.Return menuState).game_state = GameState.Playing ∧
    ((ticks 3 (key_down_event KeyCode.Return menuState)).game_state = GameState.Playing ∧
     speedSq (ticks 3 (key_down_event KeyCode.Return menuState)) =
       speedSq (key_down_event KeyCode.Return menuState)) :=
  ⟨rfl, C2_speed_magnitude_invariant (key_down_event KeyCode.Return menuState) 3 rfl⟩

/-- C3: `start_game` sets the ball velocity to `(+s, +s)` with
`s = difficultySpeed d` (2 for Easy, 4 for Medium, 6 for Hard, always
positive), sets the screen to Playing, and changes no other field. -/
theorem C3_start_game_velocity (s : MainState) :
    (start_game s).game_state = GameState.Playing ∧
    (start_game s).ball_velocity_x = difficultySpeed s.difficulty ∧
    (start_game s).ball_velocity_y = difficultySpeed s.difficulty ∧
    0 < difficultySpeed s.difficulty ∧
    difficultySpeed Difficulty.Easy = 2 ∧
    difficultySpeed Difficulty.Medium = 4 ∧
    difficultySpeed Difficulty.Hard = 6 ∧
    (start_game s).left_paddle_y = s.left_paddle_y ∧
    (start_game s).right_paddle_y = s.right_paddle_y ∧
    (start_game s).ball_position_x = s.ball_position_x ∧
    (start_game s).ball_position_y = s.ball_position_y ∧
    (start_game s).difficulty = s.difficulty ∧
    (start_game s).menu_selection = s.menu_selection ∧
    (start_game s).pause_selection = s.pause_selection ∧
    (start_game s).left_paddle_dragging = s.left_paddle_dragging ∧
    (start_game s).right_paddle_dragging = s.right_paddle_dragging := by
  refine ⟨rfl, rfl, rfl, ?_, rfl, rfl, rfl, rfl, rfl, rfl, rfl, rfl, rfl, rfl, rfl, rfl⟩
  cases s.difficulty <;> norm_num [difficultySpeed]

/-- C5: from Paused with selection 1 ("Restart"), Enter re-centers both
paddles and the ball, relaunches at the stored difficulty's speed, and
moves to Playing. -/
theorem C5_pause_restart (s : MainState)
    (hg : s.game_state = GameState.Paused) (hp : s.pause_selection = 1) :
    restartOutcome s.difficulty (key_down_event KeyCode.Return s) := by
  simp [key_down_event, hg, key_down_paused, pause_enter, hp, restart_game, start_game,
    restartOutcome]

/-- Witness for C5 at a concrete Paused state with selection 1. -/
theorem C5_witness :
    pausedRestartState.game_state = GameState.Paused ∧
    pausedRestartState.pause_selection = 1 ∧
    restartOutcome pausedRestartState.difficulty
      (key_down_event KeyCode.Return pausedRestartState) :=
  ⟨rfl, rfl, C5_pause_restart pausedRestartState rfl rfl⟩

/-- C7: a left click at `(310, 215)` while on the Menu screen lands in the
first 200×50 hit-region at `(300, 200)`, selects option 0 ("Easy") and
immediately runs the Enter action: difficulty Easy, velocity `(2, 2)`,
screen Playing. -/
theorem C7_menu_click_easy (s : MainState) (hg : s.game_state = GameState.Menu) :
    (mouse_button_down_event MouseButton.Left 310 215 s).menu_selection = 0 ∧
    (mouse_button_down_event MouseButton.Left 310 215 s).difficulty = Difficulty.Easy ∧
    (mouse_button_down_event MouseButton.Left 310 215 s).ball_velocity_x = 2 ∧
    (mouse_button_down_event MouseButton.Left 310 215 s).ball_velocity_y = 2 ∧
    (mouse_button_down_event MouseButton.Left 310 215 s).game_state = GameState.Playing := by
  norm_num +decide [mouse_button_down_event, hg, mouse_down_menu, hitIndex, hitIndexAux,
    menu_options, key_down_event, key_down_menu, menu_enter, start_game, difficultySpeed]

/-- Witness for C7 at the concrete Menu state reached from Home. -/
theorem C7_witness :
    menuState.game_state = GameState.Menu ∧
    ((mouse_button_down_event MouseButton.Left 310 215 menuState).menu_selection = 0 ∧
     (mouse_button_down_event MouseButton.Left 310 215 menuState).difficulty = Difficulty.Easy ∧
     (mouse_button_down_event MouseButton.Left 310 215 menuState).ball_velocity_x = 2 ∧
     (mouse_button_down_event MouseButton.Left 310 215 menuState).ball_velocity_y = 2 ∧
     (mouse_button_down_event MouseButton.Left 310 215 menuState).game_state = GameState.Playing) :=
  ⟨rfl, C7_menu_click_easy menuState rfl⟩

/-- C9: from the initial Home state, Enter reaches the Menu with selection
1 (Medium highlighted); from any Menu state with selection 1, Enter
reaches Playing with difficulty Medium and velocity `(4, 4)`. -/
theorem C9_enter_enter (s : MainState) (hg : s.game_state = GameState.Menu)
    (hm : s.menu_selection = 1) :
    (key_down_event KeyCode.Return MainState.new).game_state = GameState.Menu ∧
    (key_down_event KeyCode.Return MainState.new).menu_selection = 1 ∧
    (key_down_event KeyCode.Return s).game_state = GameState.Playing ∧
    (key_down_event KeyCode.Return s).difficulty = Difficulty.Medium ∧
    (key_down_event KeyCode.Return s).ball_velocity_x = 4 ∧
    (key_down_event KeyCode.Return s).ball_velocity_y = 4 := by
  refine ⟨rfl, rfl, ?_, ?_, ?_, ?_⟩ <;>
    simp [key_down_event, hg, key_down_menu, menu_enter, hm, start_game, difficultySpeed]

/-- Witness for C9 at the concrete Menu state reached from Home. -/
theorem C9_witness :
    menuState.game_state = GameState.Menu ∧ menuState.menu_selection = 1 ∧
    ((key_down_event KeyCode.Return MainState.new).game_state = GameState.Menu ∧
     (key_down_event KeyCode.Return MainState.new).menu_selection = 1 ∧
     (key_down_event KeyCode.Return menuState).game_state = GameState.Playing ∧
     (key_down_event KeyCode.Return menuState).difficulty = Difficulty.Medium ∧
     (key_down_event KeyCode.Return menuState).ball_velocity_x = 4 ∧
     (key_down_event KeyCode.Return menuState).ball_velocity_y = 4) :=
  ⟨rfl, rfl, C9_enter_enter menuState rfl rfl⟩

/-- C10: releasing the left mouse button when no drag is active leaves the
whole session state unchanged (the handler only re-clears the two dragging
flags). -/
theorem C10_mouse_up_no_drag_noop (s : MainState) (x y : ℚ)
    (hl : s.left_paddle_dragging = false) (hr : s.right_paddle_dragging = false) :
    mouse_button_up_event MouseButton.Left x y s = s := by
  cases s with
  | mk a b c d e f g h i j k l =>
      dsimp at hl hr
      subst hl; subst hr
      rfl

/-- Witness for C10 at the initial state. -/
theorem C10_witness :
    MainState.new.left_paddle_dragging = false ∧
    MainState.new.right_paddle_dragging = false ∧
    mouse_button_up_event MouseButton.Left 0 0 MainState.new = MainState.new :=
  ⟨rfl, rfl, C10_mouse_up_no_drag_noop MainState.new 0 0 rfl rfl⟩

end Pong

namespace Pong

lemma paddles_key_down_home (k : KeyCode) (s : MainState) :
    (key_down_home k s).left_paddle_y = s.left_paddle_y ∧
    (key_down_home k s).right_paddle_y = s.right_paddle_y := by
  unfold key_down_home; split_ifs <;> exact ⟨rfl, rfl⟩

lemma paddles_menu_enter (s : MainState) :
    (menu_enter s).left_paddle_y = s.left_paddle_y ∧
    (menu_enter s).right_paddle_y = s.right_paddle_y := by
  unfold menu_enter start_game; split_ifs <;> exact ⟨rfl, rfl⟩

lemma paddles_key_down_menu (k : KeyCode) (s : MainState) :
    (key_down_menu k s).left_paddle_y = s.left_paddle_y ∧
    (key_down_menu k s).right_paddle_y = s.right_paddle_y := by
  unfold key_down_menu
  split_ifs <;> first | exact ⟨rfl, rfl⟩ | exact paddles_menu_enter s

lemma paddles_pause_enter (s : MainState) (h : s.pause_selection ≠ 1) :
    (pause_enter s).left_paddle_y = s.left_paddle_y ∧
    (pause_enter s).right_paddle_y = s.right_paddle_y := by
  unfold pause_enter stop_game
  split_ifs
  all_goals exact ⟨rfl, rfl⟩

lemma paddles_key_down_paused_noRestart (k : KeyCode) (s : MainState)
    (h : k = KeyCode.Return → s.pause_selection ≠ 1) :
    (key_down_paused k s).left_paddle_y = s.left_paddle_y ∧
    (key_down_paused k s).right_paddle_y = s.right_paddle_y := by
  unfold key_down_paused
  split_ifs <;>
    first
      | exact ⟨rfl, rfl⟩
      | exact paddles_pause_enter s (h ‹k = KeyCode.Return›)

lemma paddles_key_down_paused (k : KeyCode) (s : MainState) :
    ((key_down_paused k s).left_paddle_y = s.left_paddle_y ∧
     (key_down_paused k s).right_paddle_y = s.right_paddle_y) ∨
    ((key_down_paused k s).left_paddle_y = WINDOW_HEIGHT / 2 - PADDLE_HEIGHT / 2 ∧
     (key_down_paused k s).right_paddle_y = WINDOW_HEIGHT / 2 - PADDLE_HEIGHT / 2) := by
  unfold key_down_paused pause_enter restart_game start_game stop_game
  split_ifs <;> first | exact Or.inl ⟨rfl, rfl⟩ | exact Or.inr ⟨rfl, rfl⟩

lemma paddles_key_down_playing_near (k : KeyCode) (s : MainState)
    (hL : paddleInRange s.left_paddle_y) (hR : paddleInRange s.right_paddle_y) :
    paddleNearRange (key_down_playing k s).left_paddle_y ∧
    paddleNearRange (key_down_playing k s).right_paddle_y := by
  obtain ⟨hL1, hL2⟩ := hL
  obtain ⟨hR1, hR2⟩ := hR
  unfold key_down_playing
  simp only [paddleNearRange, WINDOW_HEIGHT, PADDLE_HEIGHT, PADDLE_SPEED] at *
  split_ifs
  all_goals try dsimp
  all_goals refine ⟨⟨?_, ?_⟩, ?_, ?_⟩ <;> linarith

lemma near_of_in (q : ℚ) (h : paddleInRange q) : paddleNearRange q := by
  simp only [paddleInRange, paddleNearRange, WINDOW_HEIGHT, PADDLE_HEIGHT, PADDLE_SPEED] at *
  constructor <;> linarith

/-- C1 (amended): after a mouse-drag motion both paddles satisfy the exact
invariant `0 ≤ y ≤ 500`; after a single W/S/Up/Down key-move from a state
satisfying it, only the weaker `-5 < y < 505` is guaranteed, because the
key handler checks the boundary before stepping and never clamps, so a
paddle dragged to within 5 units of a bound can overshoot by less than one
5-unit step. -/
theorem C1_paddle_bounds (s : MainState) (k : KeyCode) (x y : ℚ)
    (hL : paddleInRange s.left_paddle_y) (hR : paddleInRange s.right_paddle_y) :
    (paddleInRange (mouse_motion_event x y s).left_paddle_y ∧
     paddleInRange (mouse_motion_event x y s).right_paddle_y) ∧
    (paddleNearRange (key_down_event k s).left_paddle_y ∧
     paddleNearRange (key_down_event k s).right_paddle_y) := by
  constructor
  · have hc := clampQ_mem y 0 (WINDOW_HEIGHT - PADDLE_HEIGHT)
      (by norm_num [WINDOW_HEIGHT, PADDLE_HEIGHT])
    unfold mouse_motion_event
    split_ifs
    · exact ⟨⟨hc.1, hc.2⟩, hR⟩
    · exact ⟨hL, ⟨hc.1, hc.2⟩⟩
    · exact ⟨hL, hR⟩
  · cases hgs : s.game_state
    case Home =>
        simp only [key_down_event, hgs]
        obtain ⟨e1, e2⟩ := paddles_key_down_home k s
        rw [e1, e2]
        exact ⟨near_of_in _ hL, near_of_in _ hR⟩
    case Menu =>
        simp only [key_down_event, hgs]
        obtain ⟨e1, e2⟩ := paddles_key_down_menu k s
        rw [e1, e2]
        exact ⟨near_of_in _ hL, near_of_in _ hR⟩
    case Playing =>
        simp only [key_down_event, hgs]
        exact paddles_key_down_playing_near k s hL hR
    case Paused =>
        simp only [key_down_event, hgs]
        rcases paddles_key_down_paused k s with ⟨e1, e2⟩ | ⟨e1, e2⟩ <;> rw [e1, e2]
        · exact ⟨near_of_in _ hL, near_of_in _ hR⟩
        · constructor <;>
            norm_num [paddleNearRange, WINDOW_HEIGHT, PADDLE_HEIGHT, PADDLE_SPEED]

/-- Witness for C1's amended theorem at the initial state (both paddles at
250) with a `W` key-move and a mouse motion towards `y = 40`. -/
theorem C1_witness :
    paddleInRange MainState.new.left_paddle_y ∧
    paddleInRange MainState.new.right_paddle_y ∧
    ((paddleInRange (mouse_motion_event 0 40 MainState.new).left_paddle_y ∧
      paddleInRange (mouse_motion_event 0 40 MainState.new).right_paddle_y) ∧
     (paddleNearRange (key_down_event KeyCode.W MainState.new).left_paddle_y ∧
      paddleNearRange (key_down_event KeyCode.W MainState.new).right_paddle_y)) :=
  have h1 : paddleInRange MainState.new.left_paddle_y := by
    norm_num [paddleInRange, MainState.new, WINDOW_HEIGHT, PADDLE_HEIGHT]
  have h2 : paddleInRange MainState.new.right_paddle_y := by
    norm_num [paddleInRange, MainState.new, WINDOW_HEIGHT, PADDLE_HEIGHT]
  ⟨h1, h2, C1_paddle_bounds MainState.new KeyCode.W 0 40 h1 h2⟩

/-- C1 as stated is false on the code: from the reachable Playing state
obtained by Enter, Enter, pressing the mouse on the left paddle and
dragging it to `y = 3`, the single key-move `W` puts the left paddle's top
edge at `y = -2`, outside `[0, 500]`. -/
theorem C1_counterexample :
    (run c1_prefix MainState.new).game_state = GameState.Playing ∧
    (run c1_prefix MainState.new).left_paddle_y = 3 ∧
    key_down_event KeyCode.W (run c1_prefix MainState.new) = run c1_trace MainState.new ∧
    (run c1_trace MainState.new).left_paddle_y = -2 ∧
    ¬ (0 ≤ (run c1_trace MainState.new).left_paddle_y) := by
  norm_num +decide [run, c1_trace, c1_prefix, List.foldl, step, key_down_event, key_down_home,
    key_down_menu, key_down_playing, key_down_paused, menu_enter, pause_enter,
    mouse_button_down_event, mouse_down_menu, mouse_down_paused, mouse_down_playing,
    mouse_motion_event, mouse_button_up_event, update, MainState.new, start_game,
    restart_game, stop_game, difficultySpeed, clampQ, Rect.contains, hitIndex, hitIndexAux,
    menu_options, pause_options, moveBall, wallBounce, leftPaddleBounce, rightPaddleBounce,
    WINDOW_WIDTH, WINDOW_HEIGHT, PADDLE_WIDTH, PADDLE_HEIGHT, PADDLE_SPEED, BALL_RADIUS]

end Pong

namespace Pong

/-- C4 as stated is false on the code: from `c4_state` (ball `(805, 300)`,
velocity `(4, 4)`, right paddle spanning `[250, 350]`), the tick moves the
ball to `(809, 304)` but does NOT flip `dx` to `-4`: it stays `4`. -/
theorem C4_counterexample :
    ¬ ((update c4_state).ball_velocity_x = -4) := by
  norm_num +decide [update, c4_state, MainState.new, moveBall, wallBounce, leftPaddleBounce,
    rightPaddleBounce, Rect.contains, WINDOW_WIDTH, WINDOW_HEIGHT, PADDLE_WIDTH,
    PADDLE_HEIGHT, BALL_RADIUS]

/-- C4 (amended): the tick advances the ball by its velocity to
`(809, 304)` with no clamping back into the window, and leaves the
velocity `(4, 4)` unchanged: the `x+radius > 780` right-edge test does
hold, but the collision additionally requires the ball's *center* to lie
inside the right paddle's rectangle (so `x ≤ 800`), which fails at
`x = 809`, hence no bounce. -/
theorem C4_tick_no_flip :
    (update c4_state).ball_position_x = 809 ∧
    (update c4_state).ball_position_y = 304 ∧
    (update c4_state).ball_velocity_x = 4 ∧
    (update c4_state).ball_velocity_y = 4 ∧
    ((809 : ℚ) + BALL_RADIUS > WINDOW_WIDTH - PADDLE_WIDTH) ∧
    ¬ Rect.contains ⟨WINDOW_WIDTH - PADDLE_WIDTH, c4_state.right_paddle_y,
        PADDLE_WIDTH, PADDLE_HEIGHT⟩ 809 304 := by
  norm_num +decide [update, c4_state, MainState.new, moveBall, wallBounce, leftPaddleBounce,
    rightPaddleBounce, Rect.contains, WINDOW_WIDTH, WINDOW_HEIGHT, PADDLE_WIDTH,
    PADDLE_HEIGHT, BALL_RADIUS]

lemma hitIndexAux_lt (x y : ℚ) (l : List (ℚ × ℚ)) :
    ∀ (i j : ℕ), hitIndexAux x y l i = some j → j < i + l.length := by
  induction l with
  | nil => intro i j hj; simp [hitIndexAux] at hj
  | cons p rest ih =>
      intro i j hj
      obtain ⟨mx, my⟩ := p
      unfold hitIndexAux at hj
      split_ifs at hj with hc
      · injection hj with hj
        subst hj
        simp only [List.length_cons]
        omega
      · have := ih (i + 1) j hj
        simp only [List.length_cons]
        omega

lemma sel_key_down (k : KeyCode) (s : MainState) (h : selInv s) :
    selInv (key_down_event k s) := by
  obtain ⟨h1, h2⟩ := h
  cases hgs : s.game_state
  case Home =>
      simp only [key_down_event, hgs]
      unfold key_down_home
      split_ifs <;> exact ⟨h1, h2⟩
  case Menu =>
      simp only [key_down_event, hgs]
      unfold key_down_menu menu_enter start_game
      split_ifs
      all_goals refine ⟨?_, ?_⟩
      all_goals try dsimp
      all_goals omega
  case Playing =>
      simp only [key_down_event, hgs]
      unfold key_down_playing
      split_ifs <;> exact ⟨h1, h2⟩
  case Paused =>
      simp only [key_down_event, hgs]
      unfold key_down_paused pause_enter restart_game start_game stop_game
      split_ifs
      all_goals refine ⟨?_, ?_⟩
      all_goals try dsimp
      all_goals omega

lemma sel_update (s : MainState) (h : selInv s) : selInv (update s) := by
  cases hgs : s.game_state
  all_goals simp only [update, hgs]
  all_goals try exact h
  unfold rightPaddleBounce leftPaddleBounce wallBounce moveBall
  split_ifs <;> exact h

lemma sel_mouse_down (b : MouseButton) (x y : ℚ) (s : MainState) (h : selInv s) :
    selInv (mouse_button_down_event b x y s) := by
  unfold mouse_button_down_event
  split_ifs with hb
  · cases hgs : s.game_state
    all_goals simp only [hgs]
    -- Home
    · exact h
    -- Menu
    · unfold mouse_down_menu
      cases hhit : hitIndex menu_options x y with
      | none => exact h
      | some i =>
          have hi : i < 4 := by
            have := hitIndexAux_lt x y menu_options 0 i hhit
            simpa [menu_options] using this
          exact sel_key_down KeyCode.Return _ ⟨by dsimp; omega, h.2⟩
    -- Playing
    · unfold mouse_down_playing
      split_ifs <;> exact h
    -- Paused
    · unfold mouse_down_paused
      cases hhit : hitIndex pause_options x y with
      | none => exact h
      | some i =>
          have hi : i < 4 := by
            have := hitIndexAux_lt x y pause_options 0 i hhit
            simpa [pause_options] using this
          exact sel_key_down KeyCode.Return _ ⟨h.1, by dsimp; omega⟩
  · exact h

lemma sel_step (e : Event) (s : MainState) (h : selInv s) : selInv (step e s) := by
  cases e with
  | tick => exact sel_update s h
  | keyDown k => exact sel_key_down k s h
  | mouseDown b x y => exact sel_mouse_down b x y s h
  | mouseUp b x y =>
      simp only [step]
      unfold mouse_button_up_event
      split_ifs <;> exact h
  | mouseMove x y =>
      simp only [step]
      unfold mouse_motion_event
      split_ifs <;> exact h

lemma sel_run (evs : List Event) (s : MainState) (h : selInv s) : selInv (run evs s) := by
  induction evs generalizing s with
  | nil => exact h
  | cons e rest ih => exact ih (step e s) (sel_step e s h)

/-- C6: starting from the initial state, after any sequence of events
(in particular any Up/Down/W/S navigation and any menu clicks) both
selection indices stay in `[0, 3]` — they are `ℕ` (Rust `usize`), so the
lower bound is automatic, decrements are guarded by `> 0` and increments
by `< 3`, and a click stores only a hit-region index `0..3`. -/
theorem C6_selection_in_range (evs : List Event) :
    (run evs MainState.new).menu_selection ≤ 3 ∧
    (run evs MainState.new).pause_selection ≤ 3 :=
  sel_run evs MainState.new ⟨by decide, by decide⟩

end Pong

namespace Pong

lemma update_not_playing (s : MainState) (h : s.game_state ≠ GameState.Playing) :
    update s = s := by
  cases hgs : s.game_state
  all_goals simp only [update, hgs]
  exact absurd hgs h

/-- C8 as stated is false on the code: press the mouse on the left paddle
while Playing, then press P — the state is Paused (not Playing) and
reachable, the left dragging flag is still set, and a mouse-move event
moves the left paddle from 250 to 100. -/
theorem C8_counterexample :
    (run c8_trace MainState.new).game_state = GameState.Paused ∧
    (run c8_trace MainState.new).left_paddle_dragging = true ∧
    (run c8_trace MainState.new).left_paddle_y = 250 ∧
    (mouse_motion_event 10 100 (run c8_trace MainState.new)).left_paddle_y = 100 := by
  norm_num +decide [run, c8_trace, List.foldl, step, key_down_event, key_down_home,
    key_down_menu, key_down_playing, key_down_paused, menu_enter, pause_enter,
    mouse_button_down_event, mouse_down_menu, mouse_down_paused, mouse_down_playing,
    mouse_motion_event, mouse_button_up_event, update, MainState.new, start_game,
    restart_game, stop_game, difficultySpeed, clampQ, Rect.contains, hitIndex, hitIndexAux,
    menu_options, pause_options, moveBall, wallBounce, leftPaddleBounce, rightPaddleBounce,
    WINDOW_WIDTH, WINDOW_HEIGHT, PADDLE_WIDTH, PADDLE_HEIGHT, PADDLE_SPEED, BALL_RADIUS]

/-- C8 (amended): when the screen is not Playing, no event moves a paddle,
provided additionally that (a) neither dragging flag is set — a flag set
while Playing survives a P-pause and keeps mouse-drag control live — and
(b) the event does not fire the pause-menu "Restart" action (Enter or a
click on the second pause option while Paused), which re-centers both
paddles. -/
theorem C8_paddles_inactive (s : MainState) (e : Event)
    (hg : s.game_state ≠ GameState.Playing)
    (hl : s.left_paddle_dragging = false) (hr : s.right_paddle_dragging = false)
    (hres : ¬ triggersRestart e s) :
    (step e s).left_paddle_y = s.left_paddle_y ∧
    (step e s).right_paddle_y = s.right_paddle_y := by
  cases e with
  | tick =>
      simp only [step]
      rw [update_not_playing s hg]
      exact ⟨rfl, rfl⟩
  | keyDown k =>
      simp only [step]
      cases hgs : s.game_state
      all_goals simp only [key_down_event, hgs]
      -- Home
      · exact paddles_key_down_home k s
      -- Menu
      · exact paddles_key_down_menu k s
      -- Playing
      · exact absurd hgs hg
      -- Paused
      · refine paddles_key_down_paused_noRestart k s ?_
        intro hk h1
        exact hres ⟨hgs, Or.inr ⟨by rw [hk], h1⟩⟩
  | mouseDown b x y =>
      simp only [step]
      unfold mouse_button_down_event
      split_ifs with hb
      · cases hgs : s.game_state
        all_goals simp only [hgs]
        -- Home
        · exact ⟨trivial, trivial⟩
        -- Menu
        · unfold mouse_down_menu
          cases hhit : hitIndex menu_options x y with
          | none => exact ⟨rfl, rfl⟩
          | some i =>
              simp only [key_down_event, hgs]
              exact paddles_key_down_menu KeyCode.Return _
        -- Playing
        · exact absurd hgs hg
        -- Paused
        · unfold mouse_down_paused
          cases hhit : hitIndex pause_options x y with
          | none => exact ⟨rfl, rfl⟩
          | some i =>
              simp only [key_down_event, hgs]
              refine paddles_key_down_paused_noRestart KeyCode.Return _ ?_
              intro _ h1
              have hi1 : i = 1 := h1
              exact hres ⟨hgs, Or.inl ⟨x, y, by rw [hb], by rw [hhit, hi1]⟩⟩
      · exact ⟨rfl, rfl⟩
  | mouseUp b x y =>
      simp only [step]
      unfold mouse_button_up_event
      split_ifs <;> exact ⟨rfl, rfl⟩
  | mouseMove x y =>
      simp only [step]
      unfold mouse_motion_event
      simp only [hl, hr]
      exact ⟨rfl, rfl⟩

/-- Witness for C8's amended theorem: a mouse-move at the initial Home
state (no drag active) leaves both paddles where they are. -/
theorem C8_witness :
    MainState.new.game_state ≠ GameState.Playing ∧
    MainState.new.left_paddle_dragging = false ∧
    MainState.new.right_paddle_dragging = false ∧
    ¬ triggersRestart (Event.mouseMove 10 100) MainState.new ∧
    ((step (Event.mouseMove 10 100) MainState.new).left_paddle_y
        = MainState.new.left_paddle_y ∧
     (step (Event.mouseMove 10 100) MainState.new).right_paddle_y
        = MainState.new.right_paddle_y) :=
  have h1 : MainState.new.game_state ≠ GameState.Playing := by decide
  have h4 : ¬ triggersRestart (Event.mouseMove 10 100) MainState.new := by
    simp [triggersRestart, MainState.new]
  ⟨h1, rfl, rfl, h4,
    C8_paddles_inactive MainState.new (Event.mouseMove 10 100) h1 rfl rfl h4⟩

end Pong
